import Mathlib

/-
Verification of the trigger-response orchestrator of the dillyJumpingDino
(motion_sensor_project) repository, as a shallow embedding in Lean.

The embedding follows src/motion_sensor_project/code/main.py and
combined_output_control.py.  Side effects are modelled as an explicit event
trace (`Ev`); fallible library calls (os.listdir, os.path.getsize, audio
playback, time.time) are modelled as oracles supplied by an environment
record, returning `Except Unit` when the Python call can raise.  Sleeps are
dropped: they do not change the event trace or the orchestrator state.
-/

set_option maxRecDepth 8000

namespace MotionScare

/-- Audio-file extension as dispatched on by `str.lower().endswith(...)`
in main.py (case-insensitive suffix of the filename). -/
inductive Ext
  | wav
  | mp3
  | ogg
  | other
deriving DecidableEq, Repr

/-- A directory entry of the audio (or idle-sound) directory: its file name
together with its (lower-cased) extension class. -/
structure Clip where
  name : String
  ext : Ext
deriving DecidableEq, Repr

/-- Observable events of one run: actuator commands, status-queue checks and
audio operations, in program order. -/
inductive Ev
  | turnOn
  | turnOff
  | check (observed : Bool)
  | stopAudio
  | playBlocking (c : Clip)
  | spawnAudio (c : Clip)
  | playAlarm
  | playMelody
  | playIdle (path : String)
deriving DecidableEq, Repr

/-- Events that command the actuator (output.turn_on / output.turn_off). -/
def isActuatorEv : Ev → Bool
  | Ev.turnOn => true
  | Ev.turnOff => true
  | _ => false

/-- The last actuator command of a trace, if any. -/
def lastActuator (l : List Ev) : Option Ev :=
  (l.filter isActuatorEv).getLast?

/-- Number of on transitions in a trace. -/
def onCount : List Ev → Nat
  | [] => 0
  | Ev.turnOn :: t => onCount t + 1
  | _ :: t => onCount t

/-- Number of off transitions in a trace. -/
def offCount : List Ev → Nat
  | [] => 0
  | Ev.turnOff :: t => offCount t + 1
  | _ :: t => offCount t

/-- main.py `_toggle_output_fixed_count(count, duration)`: output on, then
`count` times (off, on), then off.  The sleeps of `duration` seconds are
trace-silent. -/
def toggle_output_fixed_count (count : Nat) : List Ev :=
  Ev.turnOn :: ((List.replicate count [Ev.turnOff, Ev.turnOn]).flatten ++ [Ev.turnOff])

/-
main.py `_toggle_output_with_audio_sync(count, duration, audio_done_queue,
is_mp3)`: the audio-completion observations are modelled by one oracle
`sig : Nat → Bool`, where `sig k` says whether the k-th status check observes
completion — either the queue holds the one-shot token put by the audio
thread (the only value ever put is True) or, for MP3 clips, pygame reports
the mixer not busy.  Both observation paths set `audio_done = True` and have
the same control flow, and a raising check is caught by the surrounding
try/except and leaves `audio_done` unchanged, i.e. behaves as an unset
observation.  Check k = 0 is the pre-loop check; iteration i performs its
off-phase check at index 2*i+1 and its on-phase check at index 2*i+2.
-/

/-- Body of the for-loop of `_toggle_output_with_audio_sync`: at most `n`
more iterations, next check index `k`.  Each iteration: toggle off, check
(break if observed), toggle on, check (break if observed). -/
def syncToggles (sig : Nat → Bool) : Nat → Nat → List Ev
  | 0, _ => []
  | n + 1, k =>
      Ev.turnOff :: Ev.check (sig k) ::
        (if sig k then [] else
          Ev.turnOn :: Ev.check (sig (k + 1)) ::
            (if sig (k + 1) then [] else syncToggles sig n (k + 2)))

/-- main.py `_toggle_output_with_audio_sync`: output on, pre-loop check,
loop body (skipped entirely when the pre-loop check already observed
completion), and a final unconditional output off. -/
def toggle_output_with_audio_sync (count : Nat) (sig : Nat → Bool) : List Ev :=
  Ev.turnOn :: Ev.check (sig 0) ::
    ((if sig 0 then [] else syncToggles sig count 1) ++ [Ev.turnOff])

/-- Scans a sync-loop trace: every on or off phase is immediately followed by
a status check, except the final forced off that ends the trace. -/
def checksAfterToggles : List Ev → Bool
  | [] => true
  | [Ev.turnOff] => true
  | Ev.turnOn :: Ev.check _ :: t => checksAfterToggles t
  | Ev.turnOff :: Ev.check _ :: t => checksAfterToggles t
  | _ => false

/-- No on transition anywhere in the trace. -/
def noOn : List Ev → Bool
  | [] => true
  | Ev.turnOn :: _ => false
  | _ :: t => noOn t

/-- After the first check that observed the completion signal, the trace
contains no further on transition. -/
def noOnAfterSignal : List Ev → Bool
  | [] => true
  | Ev.check true :: t => noOn t
  | _ :: t => noOnAfterSignal t

/-- Completion signal that is first observed at check index 5, i.e. at the
status check directly after the 3rd off transition. -/
def sigAfterThirdOff (k : Nat) : Bool :=
  decide (5 ≤ k)

-- Helper lemmas about the sync toggle loop.

theorem getLast?_append_single (l : List Ev) (a : Ev) :
    (l ++ [a]).getLast? = some a := by
  rw [List.getLast?_append_cons]
  rfl

theorem lastActuator_append_off (l : List Ev) :
    lastActuator (l ++ [Ev.turnOff]) = some Ev.turnOff := by
  unfold lastActuator
  rw [List.filter_append]
  exact getLast?_append_single _ _

theorem checksAfterToggles_syncToggles (sig : Nat → Bool) :
    ∀ n k, checksAfterToggles (syncToggles sig n k ++ [Ev.turnOff]) = true := by
  intro n
  induction n with
  | zero => intro k; rfl
  | succ m ih =>
      intro k
      by_cases h1 : sig k
      · simp [syncToggles, h1, checksAfterToggles]
      · by_cases h2 : sig (k + 1)
        · simp [syncToggles, h1, h2, checksAfterToggles]
        · simpa [syncToggles, h1, h2, checksAfterToggles] using ih (k + 2)

theorem noOnAfterSignal_syncToggles (sig : Nat → Bool) :
    ∀ n k, noOnAfterSignal (syncToggles sig n k ++ [Ev.turnOff]) = true := by
  intro n
  induction n with
  | zero => intro k; rfl
  | succ m ih =>
      intro k
      by_cases h1 : sig k
      · simp [syncToggles, h1, noOnAfterSignal, noOn]
      · by_cases h2 : sig (k + 1)
        · simp [syncToggles, h1, h2, noOnAfterSignal, noOn]
        · simpa [syncToggles, h1, h2, noOnAfterSignal] using ih (k + 2)

theorem onCount_append_off (l : List Ev) :
    onCount (l ++ [Ev.turnOff]) = onCount l := by
  induction l with
  | nil => rfl
  | cons a t iht => cases a <;> simp [onCount, iht]

theorem offCount_append_off (l : List Ev) :
    offCount (l ++ [Ev.turnOff]) = offCount l + 1 := by
  induction l with
  | nil => rfl
  | cons a t iht => cases a <;> simp [offCount, iht]

theorem onCount_syncToggles (sig : Nat → Bool) :
    ∀ n k, onCount (syncToggles sig n k) ≤ n := by
  intro n
  induction n with
  | zero => intro k; simp [syncToggles, onCount]
  | succ m ih =>
      intro k
      cases h1 : sig k with
      | true => simp [syncToggles, h1, onCount]
      | false =>
          cases h2 : sig (k + 1) with
          | true => simp [syncToggles, h1, h2, onCount]
          | false =>
              have := ih (k + 2)
              simp [syncToggles, h1, h2, onCount]
              omega

theorem offCount_syncToggles (sig : Nat → Bool) :
    ∀ n k, offCount (syncToggles sig n k) ≤ n := by
  intro n
  induction n with
  | zero => intro k; simp [syncToggles, offCount]
  | succ m ih =>
      intro k
      cases h1 : sig k with
      | true => simp [syncToggles, h1, offCount]
      | false =>
          cases h2 : sig (k + 1) with
          | true => simp [syncToggles, h1, h2, offCount]
          | false =>
              have := ih (k + 2)
              simp [syncToggles, h1, h2, offCount]
              omega

/-- C4.  The synchronized toggle loop checks the completion signal after
every on or off phase; once a check observes the signal it performs no
further on transition; on and off transitions are bounded by the requested
maximum; the last actuator command is always turn_off; and in the concrete
scenario max_toggles = 10 with the signal first observed at the check after
the 3rd off transition, the loop performs only 3 on transitions (at or
before the 4th) and only 4 off transitions, far short of the 10 scheduled
toggles. -/
theorem C4_sync_toggle_loop :
    (∀ count sig, checksAfterToggles (toggle_output_with_audio_sync count sig) = true) ∧
    (∀ count sig, noOnAfterSignal (toggle_output_with_audio_sync count sig) = true) ∧
    (∀ count sig, onCount (toggle_output_with_audio_sync count sig) ≤ count + 1) ∧
    (∀ count sig, offCount (toggle_output_with_audio_sync count sig) ≤ count + 1) ∧
    (∀ count sig, lastActuator (toggle_output_with_audio_sync count sig) = some Ev.turnOff) ∧
    (onCount (toggle_output_with_audio_sync 10 sigAfterThirdOff) = 3 ∧
     offCount (toggle_output_with_audio_sync 10 sigAfterThirdOff) = 4) := by
  refine ⟨?_, ?_, ?_, ?_, ?_, by decide⟩
  · intro count sig
    by_cases h0 : sig 0
    · simp [toggle_output_with_audio_sync, h0, checksAfterToggles]
    · simpa [toggle_output_with_audio_sync, h0, checksAfterToggles] using
        checksAfterToggles_syncToggles sig count 1
  · intro count sig
    by_cases h0 : sig 0
    · simp [toggle_output_with_audio_sync, h0, noOnAfterSignal, noOn]
    · simpa [toggle_output_with_audio_sync, h0, noOnAfterSignal] using
        noOnAfterSignal_syncToggles sig count 1
  · intro count sig
    cases h0 : sig 0 with
    | true => simp [toggle_output_with_audio_sync, h0, onCount]
    | false =>
        have h := onCount_syncToggles sig count 1
        simp [toggle_output_with_audio_sync, h0, onCount, onCount_append_off]
        omega
  · intro count sig
    cases h0 : sig 0 with
    | true => simp [toggle_output_with_audio_sync, h0, offCount]
    | false =>
        have h := offCount_syncToggles sig count 1
        simp [toggle_output_with_audio_sync, h0, offCount, offCount_append_off]
        omega
  · intro count sig
    have hshape : toggle_output_with_audio_sync count sig =
        (Ev.turnOn :: Ev.check (sig 0) ::
          (if sig 0 then [] else syncToggles sig count 1)) ++ [Ev.turnOff] := rfl
    rw [hshape]
    exact lastActuator_append_off _

/-! Scare orchestrator: `do_simple_scare_with_audio` and `button_pressed`
of main.py. -/

/-- True for the extensions accepted by the filter
`f.lower().endswith(('.wav', '.mp3', '.ogg'))` in main.py. -/
def isValidAudioExt (c : Clip) : Bool :=
  c.ext == Ext.wav || c.ext == Ext.mp3 || c.ext == Ext.ogg

/-- The orchestrator's process-wide mutable state: the module-level globals
SCARE_IN_PROGRESS, LAST_ACTIVITY_TIME, IDLE_SOUND_PLAYED,
LAST_IDLE_SOUND_TIME and LAST_IDLE_SOUND of main.py.  Timestamps are exact
rationals (seconds). -/
structure OrchState where
  scareInProgress : Bool
  lastActivityTime : ℚ
  idleSoundPlayed : Bool
  lastIdleSoundTime : ℚ
  lastIdleSound : String
deriving DecidableEq, Repr

/-- Environment of one `button_pressed` invocation.  Each field is the
outcome of one external call: an `Except Unit` result models a Python call
that may raise (the exception identity is irrelevant, so errors are `()`).
`getsize` is keyed by file name, so the two `os.path.getsize` calls on the
same path agree, as they do for an unchanged file. -/
structure ScareEnv where
  /-- time.time() succeeds at the entry-point activity update. -/
  timeOk1 : Bool
  /-- Value of time.time() at the entry-point activity update. -/
  now1 : ℚ
  /-- time.time() succeeds at the cleanup activity update. -/
  timeOk2 : Bool
  /-- Value of time.time() at the cleanup activity update. -/
  now2 : ℚ
  /-- os.listdir(audio.audio_dir): entries with their extension class. -/
  listdir : Except Unit (List Clip)
  /-- random.choice over the valid clips, modelled as an index. -/
  chooseIdx : Nat
  /-- os.path.getsize for a file of the audio directory. -/
  getsize : String → Except Unit Nat
  /-- audio.play_audio_file(path, blocking=True): the attempted blocking
  playback of the short-WAV branch, which may raise or report failure. -/
  playBlocking : String → Except Unit Bool
  /-- Completion-signal observations of the sync toggle loop. -/
  sig : Nat → Bool

/-- Toggle plan: `toggle_count` and `toggle_duration` (seconds) as computed
in do_simple_scare_with_audio. -/
structure ToggleSchedule where
  count : Nat
  duration : ℚ
deriving DecidableEq, Repr

/-- WAV duration estimate of main.py: file size / 176400 bytes-per-second. -/
def estimatedWavDuration (size : Nat) : ℚ :=
  (size : ℚ) / 176400

/-- The toggle-schedule computation of do_simple_scare_with_audio
(main.py lines 112-136): defaults count 10 / duration 0.2 s; a WAV clip
estimated below 1 s gets 5 toggles at 0.3 s; a longer WAV gets
max(5, min(20, int(estimated * 2.5))) toggles at 0.2 s; an MP3 gets 15
toggles; anything else keeps the default.  `os.path.getsize` may raise. -/
def computeToggleSchedule (clip : Option Clip) (getsize : String → Except Unit Nat) :
    Except Unit ToggleSchedule :=
  match clip with
  | none => Except.ok ⟨10, 2/10⟩
  | some c =>
    match c.ext with
    | Ext.wav =>
      match getsize c.name with
      | Except.error e => Except.error e
      | Except.ok sz =>
        let est := estimatedWavDuration sz
        if est < 1 then Except.ok ⟨5, 3/10⟩
        else Except.ok ⟨max 5 (min 20 (Int.toNat ⌊est * (5/2 : ℚ)⌋)), 2/10⟩
    | Ext.mp3 => Except.ok ⟨15, 2/10⟩
    | _ => Except.ok ⟨10, 2/10⟩

/-- The branch test of main.py line 139: the clip is a WAV file of fewer
than 100000 bytes.  (For a WAV clip the `Except.error` case is unreachable
here: the schedule computation already forced the same `getsize` call.) -/
def isShortWav (c : Clip) (getsize : String → Except Unit Nat) : Bool :=
  c.ext == Ext.wav &&
    (match getsize c.name with
     | Except.ok sz => decide (sz < 100000)
     | Except.error _ => false)

/-- main.py `do_simple_scare_with_audio(audio_path)`: turn the output on,
compute the toggle schedule, then either (short WAV) play the clip to
completion in blocking mode and afterwards run the fixed toggle loop, or
(any other clip) start the playback thread and run the synchronized toggle
loop, or (no clip) run the synchronized loop with a never-fired signal; turn
the output off at the end.  Returns the event trace and the propagated
exception, if any (an uncaught exception skips the trailing turn-off at line
185 — the caller's finally block provides the cleanup). -/
def do_simple_scare_with_audio (clip : Option Clip) (env : ScareEnv) :
    List Ev × Option Unit :=
  match computeToggleSchedule clip env.getsize with
  | Except.error e => ([Ev.turnOn], some e)
  | Except.ok sched =>
    match clip with
    | some c =>
      if isShortWav c env.getsize then
        match env.playBlocking c.name with
        | Except.error e => ([Ev.turnOn, Ev.playBlocking c], some e)
        | Except.ok _ =>
            (Ev.turnOn :: Ev.playBlocking c ::
              (toggle_output_fixed_count sched.count ++ [Ev.turnOff]), none)
      else
        (Ev.turnOn :: Ev.spawnAudio c ::
          (toggle_output_with_audio_sync sched.count env.sig ++ [Ev.turnOff]), none)
    | none =>
        (Ev.turnOn ::
          (toggle_output_with_audio_sync sched.count (fun _ => false) ++ [Ev.turnOff]),
         none)

/-- Clip selection of button_pressed (main.py lines 321-329): filter the
directory listing for valid audio extensions and pick one pseudo-randomly;
`none` when the listing or the filtered list is empty. -/
def selectClip (files : List Clip) (idx : Nat) : Option Clip :=
  let valid := files.filter isValidAudioExt
  if valid.isEmpty then none else valid[idx % valid.length]?

/-- Result of one `button_pressed` invocation: the final orchestrator state,
the event trace, and the exception that propagated out of the call, if
any. -/
structure BPResult where
  state : OrchState
  trace : List Ev
  err : Option Unit
deriving Repr

/-- main.py `button_pressed()`: update LAST_ACTIVITY_TIME (with its own
fallback when time.time() raises: previous value + 1) and clear
IDLE_SOUND_PLAYED; return immediately when SCARE_IN_PROGRESS; otherwise set
the flag and run the try block (list the audio directory, stop current
audio, select a clip, run the scare sequence, and — only when no clip was
selected — play the built-in alarm and melody).  The finally block always
turns the output off, clears SCARE_IN_PROGRESS, re-updates
LAST_ACTIVITY_TIME and clears IDLE_SOUND_PLAYED; there is no except clause,
so an exception from the try block propagates to the caller after the
finally block ran. -/
def button_pressed (st : OrchState) (env : ScareEnv) : BPResult :=
  let la1 := if env.timeOk1 then env.now1 else st.lastActivityTime + 1
  let st1 : OrchState := { st with lastActivityTime := la1, idleSoundPlayed := false }
  if st1.scareInProgress then ⟨st1, [], none⟩
  else
    let st2 : OrchState := { st1 with scareInProgress := true }
    let body : List Ev × Option Unit :=
      match env.listdir with
      | Except.error e => ([], some e)
      | Except.ok files =>
        let clip := selectClip files env.chooseIdx
        let scare := do_simple_scare_with_audio clip env
        match scare.2 with
        | some e => (Ev.stopAudio :: scare.1, some e)
        | none =>
          match clip with
          | none => (Ev.stopAudio :: (scare.1 ++ [Ev.playAlarm, Ev.playMelody]), none)
          | some _ => (Ev.stopAudio :: scare.1, none)
    let la2 := if env.timeOk2 then env.now2 else la1 + 1
    let st3 : OrchState :=
      { st2 with scareInProgress := false, lastActivityTime := la2,
                 idleSoundPlayed := false }
    ⟨st3, body.1 ++ [Ev.turnOff], body.2⟩

/-! Idle monitor: `play_idle_sound` and `check_inactivity` of main.py. -/

/-- IDLE_SOUNDS_DIR path join, os.path.join(IDLE_SOUNDS_DIR, f). -/
def idleSoundPath (name : String) : String :=
  "idle_sounds/" ++ name

/-- The designated default idle clip,
os.path.join(AUDIO_DIR, "Snarl new.wav"). -/
def defaultIdleSound : String :=
  "audio_files/Snarl new.wav"

/-- Source constant STANDBY_TIMEOUT (seconds).  The idle functions take the
timeout as a parameter (the spec's configuration surface); this is the value
main.py runs with. -/
def STANDBY_TIMEOUT : ℚ := 120

/-- Source constant IDLE_REPEAT_INTERVAL (seconds). -/
def IDLE_REPEAT_INTERVAL : ℚ := 120

/-- Configuration of the idle monitor: the module constants STANDBY_TIMEOUT
and IDLE_REPEAT_INTERVAL. -/
structure IdleConfig where
  standbyTimeout : ℚ
  idleRepeatInterval : ℚ
deriving DecidableEq, Repr

/-- Environment of one idle tick. -/
structure IdleEnv where
  /-- time.time() succeeds in check_inactivity. -/
  clockOk : Bool
  /-- Value of time.time() in check_inactivity. -/
  now : ℚ
  /-- random.randint(STANDBY_TIMEOUT - 10, STANDBY_TIMEOUT + 10), the
  fallback offset used when the clock read fails. -/
  fallbackDelta : ℚ
  /-- os.makedirs + os.listdir(IDLE_SOUNDS_DIR): the idle-directory entries,
  or the exception either call raised (both are uncaught in
  play_idle_sound). -/
  idleFiles : Except Unit (List Clip)
  /-- os.path.exists(AUDIO_DIR/"Snarl new.wav"). -/
  defaultExists : Bool
  /-- random.choice over the candidate idle clips, modelled as an index. -/
  chooseIdx : Nat
  /-- time.time() succeeds when recording LAST_IDLE_SOUND_TIME. -/
  idleClockOk : Bool
  /-- Value of time.time() when recording LAST_IDLE_SOUND_TIME. -/
  idleNow : ℚ

/-- main.py `play_idle_sound()`: list the idle directory (uncaught on
failure); when it has no valid audio files, play the designated default clip
at 70% volume if it exists and the idle sound has not been played; otherwise
pick a random idle clip, avoiding the previously played one when another is
available, play it at 70% volume, set IDLE_SOUND_PLAYED, and record
LAST_IDLE_SOUND and LAST_IDLE_SOUND_TIME (falling back to
LAST_ACTIVITY_TIME when the clock read fails). -/
def play_idle_sound (st : OrchState) (env : IdleEnv) :
    OrchState × List Ev × Option Unit :=
  match env.idleFiles with
  | Except.error e => (st, [], some e)
  | Except.ok entries =>
    let idleFiles := entries.filter isValidAudioExt
    if idleFiles.isEmpty then
      if env.defaultExists then
        if st.idleSoundPlayed then (st, [], none)
        else
          let t := if env.idleClockOk then env.idleNow else st.lastActivityTime
          ({ st with idleSoundPlayed := true, lastIdleSound := defaultIdleSound,
                     lastIdleSoundTime := t },
           [Ev.playIdle defaultIdleSound], none)
      else (st, [], none)
    else
      if st.idleSoundPlayed then (st, [], none)
      else
        let avail := idleFiles.filter fun c => idleSoundPath c.name != st.lastIdleSound
        let pool := if avail.isEmpty then idleFiles else avail
        match pool[env.chooseIdx % pool.length]? with
        | none => (st, [], none)
        | some sel =>
          let p := idleSoundPath sel.name
          let t := if env.idleClockOk then env.idleNow else st.lastActivityTime
          ({ st with idleSoundPlayed := true, lastIdleSound := p,
                     lastIdleSoundTime := t },
           [Ev.playIdle p], none)

/-- main.py `check_inactivity()`: read the clock (on failure fall back to
LAST_ACTIVITY_TIME plus a random offset near the timeout); reset
IDLE_SOUND_PLAYED once the repeat interval since LAST_IDLE_SOUND_TIME has
elapsed; when the inactivity window has elapsed, no scare is in progress and
the idle sound has not been played, call play_idle_sound. -/
def check_inactivity (cfg : IdleConfig) (st : OrchState) (env : IdleEnv) :
    OrchState × List Ev × Option Unit :=
  let current := if env.clockOk then env.now else st.lastActivityTime + env.fallbackDelta
  let inactive := current - st.lastActivityTime
  let st1 :=
    if st.idleSoundPlayed ∧ cfg.idleRepeatInterval ≤ current - st.lastIdleSoundTime
    then { st with idleSoundPlayed := false } else st
  if cfg.standbyTimeout ≤ inactive ∧ st1.scareInProgress = false ∧
     st1.idleSoundPlayed = false
  then play_idle_sound st1 env
  else (st1, [], none)

/-! Actuator abstraction: `CombinedOutputControl` of
combined_output_control.py. -/

/-- The two output backends of CombinedOutputControl. -/
inductive OutputType
  | gpio
  | usbRelay
deriving DecidableEq, Repr

/-- CombinedOutputControl instance state: selected backend, whether each
underlying controller object exists (is not None), and the `is_on`
observation. -/
structure CombinedOutputControl where
  outputType : OutputType
  hasGpioController : Bool
  hasUsbController : Bool
  is_on : Bool
deriving DecidableEq, Repr

/-- combined_output_control.py `CombinedOutputControl.turn_on`.  `usbResult`
is the boolean returned by `USBRelay.turn_on()` (which never raises).
Returns the method's result and the updated instance. -/
def CombinedOutputControl.turn_on (d : CombinedOutputControl) (usbResult : Bool) :
    Bool × CombinedOutputControl :=
  if d.outputType = OutputType.gpio ∧ d.hasGpioController = true then
    (true, { d with is_on := true })
  else if d.outputType = OutputType.usbRelay ∧ d.hasUsbController = true then
    (usbResult, { d with is_on := usbResult })
  else
    (false, d)

/-- combined_output_control.py `CombinedOutputControl.turn_off` (lines
100-112).  On the GPIO path is_on is cleared unconditionally; on the USB
path `is_on = not success`, i.e. is_on is set to False only when
`USBRelay.turn_off()` reported success. -/
def CombinedOutputControl.turn_off (d : CombinedOutputControl) (usbResult : Bool) :
    Bool × CombinedOutputControl :=
  if d.outputType = OutputType.gpio ∧ d.hasGpioController = true then
    (true, { d with is_on := false })
  else if d.outputType = OutputType.usbRelay ∧ d.hasUsbController = true then
    (usbResult, { d with is_on := !usbResult })
  else
    (false, d)

/-! C1: actuator commanded off at session end on every path. -/

/-- C1.  For every invocation of button_pressed that starts a scare session
(no session already in progress), whatever the environment does — directory
listing, size probing and playback may each succeed, fail or raise — the
final actuator command of the session's trace is turn_off: the finally block
of button_pressed runs on every path. -/
theorem C1_actuator_off_all_paths (st : OrchState) (env : ScareEnv)
    (h : st.scareInProgress = false) :
    lastActuator (button_pressed st env).trace = some Ev.turnOff := by
  unfold button_pressed
  simp only [h, Bool.false_eq_true, if_false]
  exact lastActuator_append_off _

/-- Concrete idle orchestrator state for the C1 witness. -/
def C1st : OrchState := ⟨false, 0, false, 0, ""⟩

/-- Concrete environment for the C1 witness: one short WAV clip whose
blocking playback raises. -/
def C1env : ScareEnv where
  timeOk1 := true
  now1 := 100
  timeOk2 := true
  now2 := 106
  listdir := Except.ok [⟨"scream.wav", Ext.wav⟩]
  chooseIdx := 0
  getsize := fun _ => Except.ok 88200
  playBlocking := fun _ => Except.error ()
  sig := fun _ => false

/-- Witness for C1 at a concrete input (playback raising mid-session). -/
theorem C1_actuator_off_all_paths_witness :
    C1st.scareInProgress = false ∧
    lastActuator (button_pressed C1st C1env).trace = some Ev.turnOff :=
  ⟨rfl, C1_actuator_off_all_paths C1st C1env rfl⟩

/-! C2: a trigger during an active session. -/

/-- Concrete busy state for the C2 counterexample: a session is active, the
idle flag is set and the activity timestamp is 0. -/
def C2busySt : OrchState := ⟨true, 0, true, 3, "x"⟩

/-- Concrete environment for the C2 counterexample: the clock reads 5. -/
def C2env : ScareEnv where
  timeOk1 := true
  now1 := 5
  timeOk2 := true
  now2 := 6
  listdir := Except.ok []
  chooseIdx := 0
  getsize := fun _ => Except.ok 0
  playBlocking := fun _ => Except.ok true
  sig := fun _ => false

/-- Counterexample to C2 as stated: a trigger received while a session is
active does NOT leave the orchestrator state unchanged — it overwrites
LAST_ACTIVITY_TIME (0 becomes 5) and clears IDLE_SOUND_PLAYED (true becomes
false), because button_pressed performs both updates before checking
SCARE_IN_PROGRESS. -/
theorem C2_busy_state_changes :
    C2busySt.scareInProgress = true ∧
    C2busySt.lastActivityTime = 0 ∧
    (button_pressed C2busySt C2env).state.lastActivityTime = 5 ∧
    C2busySt.idleSoundPlayed = true ∧
    (button_pressed C2busySt C2env).state.idleSoundPlayed = false := by
  decide

/-- C2 (amended).  A trigger that arrives while a session is active performs
no actuator or audio operation, raises nothing and returns at once, leaving
SCARE_IN_PROGRESS, LAST_IDLE_SOUND_TIME and LAST_IDLE_SOUND unchanged — but
it first sets LAST_ACTIVITY_TIME to the current time and clears the
idle-sound-played flag. -/
theorem C2_busy_is_actuator_audio_noop (st : OrchState) (env : ScareEnv)
    (hb : st.scareInProgress = true) (ht : env.timeOk1 = true) :
    (button_pressed st env).trace = [] ∧
    (button_pressed st env).err = none ∧
    (button_pressed st env).state =
      { st with lastActivityTime := env.now1, idleSoundPlayed := false } := by
  unfold button_pressed
  simp [hb, ht]

/-- Witness for the amended C2 at the concrete busy input. -/
theorem C2_busy_is_actuator_audio_noop_witness :
    C2busySt.scareInProgress = true ∧ C2env.timeOk1 = true ∧
    ((button_pressed C2busySt C2env).trace = [] ∧
     (button_pressed C2busySt C2env).err = none ∧
     (button_pressed C2busySt C2env).state =
       { C2busySt with lastActivityTime := C2env.now1, idleSoundPlayed := false }) :=
  ⟨rfl, rfl, C2_busy_is_actuator_audio_noop C2busySt C2env rfl rfl⟩

/-! C3: exception propagation out of the trigger entry point. -/

/-- Concrete idle state for the C3 counterexample. -/
def C3st : OrchState := ⟨false, 7, false, 0, ""⟩

/-- Concrete environment for the C3 counterexample: os.listdir raises. -/
def C3env : ScareEnv where
  timeOk1 := true
  now1 := 50
  timeOk2 := true
  now2 := 51
  listdir := Except.error ()
  chooseIdx := 0
  getsize := fun _ => Except.ok 0
  playBlocking := fun _ => Except.ok true
  sig := fun _ => false

/-- Counterexample to C3 as stated: when os.listdir of the audio directory
raises, the exception propagates out of button_pressed (the try block has a
finally clause but no except clause), so the call does not return
normally. -/
theorem C3_exception_escapes :
    C3st.scareInProgress = false ∧
    (button_pressed C3st C3env).err = some () := by
  decide

/-- C3 (amended).  Failures inside the scare sequence are not caught by
button_pressed: a directory-listing failure propagates out of the call.
The finally block still runs first: the actuator is commanded off and the
session flag is cleared before the exception escapes. -/
theorem C3_escape_after_cleanup (st : OrchState) (env : ScareEnv)
    (h : st.scareInProgress = false) (hl : env.listdir = Except.error ()) :
    (button_pressed st env).err = some () ∧
    lastActuator (button_pressed st env).trace = some Ev.turnOff ∧
    (button_pressed st env).state.scareInProgress = false := by
  unfold button_pressed
  simp [h, hl, lastActuator, isActuatorEv, List.getLast?]

/-- Witness for the amended C3 at the concrete raising input. -/
theorem C3_escape_after_cleanup_witness :
    C3st.scareInProgress = false ∧ C3env.listdir = Except.error () ∧
    ((button_pressed C3st C3env).err = some () ∧
     lastActuator (button_pressed C3st C3env).trace = some Ev.turnOff ∧
     (button_pressed C3st C3env).state.scareInProgress = false) :=
  ⟨rfl, rfl, C3_escape_after_cleanup C3st C3env rfl rfl⟩

/-! C6: the toggle-schedule computation. -/

/-- C6.  The toggle schedule: a WAV clip whose estimated duration is below
1 s gets 5 toggles at 0.3 s; a WAV clip with estimated duration at least 1 s
gets int(estimated * 2.5) toggles clamped to [5, 20] (hence always within
[5, 20]) at 0.2 s; with no duration estimate — no clip, or a clip that is
neither WAV nor MP3 — the default of 10 toggles at 0.2 s is used; in
particular estimated duration 0.5 s (size 88200 bytes) yields 5 toggles at
0.3 s. -/
theorem C6_toggle_schedule :
    (∀ (name : String) (g : String → Except Unit Nat) (sz : Nat),
        g name = Except.ok sz → estimatedWavDuration sz < 1 →
        computeToggleSchedule (some ⟨name, Ext.wav⟩) g = Except.ok ⟨5, 3/10⟩) ∧
    (∀ (name : String) (g : String → Except Unit Nat) (sz : Nat),
        g name = Except.ok sz → 1 ≤ estimatedWavDuration sz →
        computeToggleSchedule (some ⟨name, Ext.wav⟩) g =
          Except.ok
            ⟨max 5 (min 20 (Int.toNat ⌊estimatedWavDuration sz * (5/2 : ℚ)⌋)), 2/10⟩ ∧
        5 ≤ max 5 (min 20 (Int.toNat ⌊estimatedWavDuration sz * (5/2 : ℚ)⌋)) ∧
        max 5 (min 20 (Int.toNat ⌊estimatedWavDuration sz * (5/2 : ℚ)⌋)) ≤ 20) ∧
    (∀ g : String → Except Unit Nat,
        computeToggleSchedule none g = Except.ok ⟨10, 2/10⟩) ∧
    (∀ (name : String) (g : String → Except Unit Nat),
        computeToggleSchedule (some ⟨name, Ext.ogg⟩) g = Except.ok ⟨10, 2/10⟩) ∧
    (∀ (name : String) (g : String → Except Unit Nat),
        computeToggleSchedule (some ⟨name, Ext.other⟩) g = Except.ok ⟨10, 2/10⟩) ∧
    (∀ (name : String) (g : String → Except Unit Nat),
        g name = Except.ok 88200 →
        computeToggleSchedule (some ⟨name, Ext.wav⟩) g = Except.ok ⟨5, 3/10⟩) := by
  refine ⟨?_, ?_, fun g => rfl, fun name g => rfl, fun name g => rfl, ?_⟩
  · intro name g sz hg hest
    simp only [computeToggleSchedule, hg]
    rw [if_pos hest]
  · intro name g sz hg hest
    refine ⟨?_, le_max_left _ _, max_le (by norm_num) (min_le_left _ _)⟩
    simp only [computeToggleSchedule, hg]
    rw [if_neg (not_lt.mpr hest)]
  · intro name g hg
    simp only [computeToggleSchedule, hg]
    rw [if_pos]
    unfold estimatedWavDuration
    norm_num

/-- Concrete size oracle for the C6 witness: every file is 88200 bytes,
i.e. estimated duration 0.5 s. -/
def C6sizeShort : String → Except Unit Nat := fun _ => Except.ok 88200

/-- Concrete size oracle for the C6 witness long branch: 882000 bytes,
i.e. estimated duration 5 s. -/
def C6sizeLong : String → Except Unit Nat := fun _ => Except.ok 882000

/-- Witness for C6: the short-WAV branch at 0.5 s, the long-WAV branch at
5 s (12 toggles), and the no-estimate default. -/
theorem C6_toggle_schedule_witness :
    (C6sizeShort "scream.wav" = Except.ok 88200 ∧
     estimatedWavDuration 88200 < 1 ∧
     computeToggleSchedule (some ⟨"scream.wav", Ext.wav⟩) C6sizeShort =
       Except.ok ⟨5, 3/10⟩) ∧
    (C6sizeLong "long.wav" = Except.ok 882000 ∧
     (1 : ℚ) ≤ estimatedWavDuration 882000 ∧
     computeToggleSchedule (some ⟨"long.wav", Ext.wav⟩) C6sizeLong =
       Except.ok
         ⟨max 5 (min 20 (Int.toNat ⌊estimatedWavDuration 882000 * (5/2 : ℚ)⌋)), 2/10⟩) ∧
    computeToggleSchedule none C6sizeShort = Except.ok ⟨10, 2/10⟩ :=
  ⟨⟨rfl, by norm_num [estimatedWavDuration],
    C6_toggle_schedule.1 "scream.wav" C6sizeShort 88200 rfl
      (by norm_num [estimatedWavDuration])⟩,
   ⟨rfl, by norm_num [estimatedWavDuration],
    (C6_toggle_schedule.2.1 "long.wav" C6sizeLong 882000 rfl
      (by norm_num [estimatedWavDuration])).1⟩,
   C6_toggle_schedule.2.2.1 C6sizeShort⟩

/-! C7: fallback on playback failure. -/

/-- Concrete idle state for C7. -/
def C7st : OrchState := ⟨false, 0, false, 0, ""⟩

/-- Concrete environment for C7: one short WAV clip is selected and its
blocking playback returns failure (False). -/
def C7env : ScareEnv where
  timeOk1 := true
  now1 := 0
  timeOk2 := true
  now2 := 9
  listdir := Except.ok [⟨"scream.wav", Ext.wav⟩]
  chooseIdx := 0
  getsize := fun _ => Except.ok 88200
  playBlocking := fun _ => Except.ok false
  sig := fun _ => false

/-- C7 evaluated at the failing input: a clip is selected, its playback
fails, the session completes without error — and no built-in alarm or
melody is played, because the fallback condition `if not audio_path` cannot
observe a playback failure.  This contradicts the claim (and the code's own
comment at main.py line 335, "If no audio was played (or if it failed), play
a default sound"). -/
theorem C7_no_fallback_on_playback_failure :
    selectClip [⟨"scream.wav", Ext.wav⟩] 0 = some ⟨"scream.wav", Ext.wav⟩ ∧
    (button_pressed C7st C7env).err = none ∧
    Ev.playBlocking ⟨"scream.wav", Ext.wav⟩ ∈ (button_pressed C7st C7env).trace ∧
    Ev.playAlarm ∉ (button_pressed C7st C7env).trace ∧
    Ev.playMelody ∉ (button_pressed C7st C7env).trace := by
  have h : button_pressed C7st C7env =
      ⟨⟨false, 9, false, 0, ""⟩,
       [Ev.stopAudio, Ev.turnOn, Ev.playBlocking ⟨"scream.wav", Ext.wav⟩,
        Ev.turnOn, Ev.turnOff, Ev.turnOn, Ev.turnOff, Ev.turnOn, Ev.turnOff,
        Ev.turnOn, Ev.turnOff, Ev.turnOn, Ev.turnOff, Ev.turnOn, Ev.turnOff,
        Ev.turnOff, Ev.turnOff],
       none⟩ := by
    norm_num [button_pressed, C7st, C7env, selectClip, isValidAudioExt,
      do_simple_scare_with_audio, isShortWav, computeToggleSchedule,
      estimatedWavDuration, toggle_output_fixed_count, List.replicate]
  rw [h]
  decide

/-! C9: concurrency of playback and toggling. -/

/-- True for the event that starts the concurrent audio-playback thread. -/
def isSpawn : Ev → Bool
  | Ev.spawnAudio _ => true
  | _ => false

/-- Concrete idle state for C9. -/
def C9st : OrchState := ⟨false, 0, false, 0, ""⟩

/-- Concrete environment for C9: one 88200-byte WAV clip (under the
100000-byte threshold) whose blocking playback succeeds. -/
def C9env : ScareEnv where
  timeOk1 := true
  now1 := 0
  timeOk2 := true
  now2 := 9
  listdir := Except.ok [⟨"scream.wav", Ext.wav⟩]
  chooseIdx := 0
  getsize := fun _ => Except.ok 88200
  playBlocking := fun _ => Except.ok true
  sig := fun _ => false

/-- Counterexample to C9 as stated: this session selected a clip, yet no
playback thread is spawned, and the blocking playback completes before any
off transition — for WAV clips under 100000 bytes the code plays the audio
to completion first and only then toggles. -/
theorem C9_short_wav_is_sequential :
    selectClip [⟨"scream.wav", Ext.wav⟩] 0 = some ⟨"scream.wav", Ext.wav⟩ ∧
    ((button_pressed C9st C9env).trace.any isSpawn) = false ∧
    Ev.playBlocking ⟨"scream.wav", Ext.wav⟩ ∈ (button_pressed C9st C9env).trace ∧
    ((button_pressed C9st C9env).trace.takeWhile
        (fun e => e != Ev.playBlocking ⟨"scream.wav", Ext.wav⟩)).all
      (fun e => e != Ev.turnOff) = true := by
  have h : button_pressed C9st C9env =
      ⟨⟨false, 9, false, 0, ""⟩,
       [Ev.stopAudio, Ev.turnOn, Ev.playBlocking ⟨"scream.wav", Ext.wav⟩,
        Ev.turnOn, Ev.turnOff, Ev.turnOn, Ev.turnOff, Ev.turnOn, Ev.turnOff,
        Ev.turnOn, Ev.turnOff, Ev.turnOn, Ev.turnOff, Ev.turnOn, Ev.turnOff,
        Ev.turnOff, Ev.turnOff],
       none⟩ := by
    norm_num [button_pressed, C9st, C9env, selectClip, isValidAudioExt,
      do_simple_scare_with_audio, isShortWav, computeToggleSchedule,
      estimatedWavDuration, toggle_output_fixed_count, List.replicate]
  rw [h]
  decide

/-- C9 (amended).  Sessions whose selected clip is not a WAV under 100000
bytes launch audio playback concurrently with the synchronized toggle loop,
coordinated only by the completion signal; sessions whose clip is a WAV
under 100000 bytes instead play the clip to completion in blocking mode and
only then run the fixed toggle loop. -/
theorem C9_concurrent_unless_short_wav :
    (∀ (env : ScareEnv) (c : Clip) (sched : ToggleSchedule),
        computeToggleSchedule (some c) env.getsize = Except.ok sched →
        isShortWav c env.getsize = false →
        do_simple_scare_with_audio (some c) env =
          (Ev.turnOn :: Ev.spawnAudio c ::
            (toggle_output_with_audio_sync sched.count env.sig ++ [Ev.turnOff]),
           none)) ∧
    (∀ (env : ScareEnv) (c : Clip) (sched : ToggleSchedule) (b : Bool),
        computeToggleSchedule (some c) env.getsize = Except.ok sched →
        isShortWav c env.getsize = true →
        env.playBlocking c.name = Except.ok b →
        do_simple_scare_with_audio (some c) env =
          (Ev.turnOn :: Ev.playBlocking c ::
            (toggle_output_fixed_count sched.count ++ [Ev.turnOff]),
           none)) := by
  constructor
  · intro env c sched hs hshort
    simp only [do_simple_scare_with_audio, hs, hshort, Bool.false_eq_true, if_false]
  · intro env c sched b hs hshort hp
    simp only [do_simple_scare_with_audio, hs, hshort, if_true, hp]

/-- Witness for the amended C9: the MP3 branch spawns the playback thread;
the short-WAV branch plays in blocking mode first. -/
theorem C9_concurrent_unless_short_wav_witness :
    (computeToggleSchedule (some ⟨"roar.mp3", Ext.mp3⟩) C9env.getsize =
       Except.ok ⟨15, 2/10⟩ ∧
     isShortWav ⟨"roar.mp3", Ext.mp3⟩ C9env.getsize = false ∧
     do_simple_scare_with_audio (some ⟨"roar.mp3", Ext.mp3⟩) C9env =
       (Ev.turnOn :: Ev.spawnAudio ⟨"roar.mp3", Ext.mp3⟩ ::
         (toggle_output_with_audio_sync 15 C9env.sig ++ [Ev.turnOff]), none)) ∧
    (computeToggleSchedule (some ⟨"scream.wav", Ext.wav⟩) C9env.getsize =
       Except.ok ⟨5, 3/10⟩ ∧
     isShortWav ⟨"scream.wav", Ext.wav⟩ C9env.getsize = true ∧
     C9env.playBlocking "scream.wav" = Except.ok true ∧
     do_simple_scare_with_audio (some ⟨"scream.wav", Ext.wav⟩) C9env =
       (Ev.turnOn :: Ev.playBlocking ⟨"scream.wav", Ext.wav⟩ ::
         (toggle_output_fixed_count 5 ++ [Ev.turnOff]), none)) :=
  ⟨⟨rfl, rfl,
    C9_concurrent_unless_short_wav.1 C9env ⟨"roar.mp3", Ext.mp3⟩ ⟨15, 2/10⟩
      rfl rfl⟩,
   ⟨by norm_num [computeToggleSchedule, C9env, estimatedWavDuration], rfl, rfl,
    C9_concurrent_unless_short_wav.2 C9env ⟨"scream.wav", Ext.wav⟩ ⟨5, 3/10⟩ true
      (by norm_num [computeToggleSchedule, C9env, estimatedWavDuration]) rfl rfl⟩⟩

/-! C10: best-effort turn_off of the combined actuator. -/

/-- C10.  On the USB-relay backend, CombinedOutputControl.turn_off returns
the relay's success flag and records `is_on = not success`: when the relay
command fails the method returns False and the is_on observation stays
True; is_on becomes False exactly when the relay reported success. -/
theorem C10_usb_turn_off_best_effort (d : CombinedOutputControl) (r : Bool)
    (ht : d.outputType = OutputType.usbRelay) (hc : d.hasUsbController = true) :
    ((d.turn_off r).1 = r ∧ (d.turn_off r).2.is_on = !r) ∧
    ((d.turn_off false).1 = false ∧ (d.turn_off false).2.is_on = true) := by
  unfold CombinedOutputControl.turn_off
  simp [ht, hc]

/-- Concrete relay-backed controller for the C10 witness, currently on. -/
def C10dev : CombinedOutputControl := ⟨OutputType.usbRelay, false, true, true⟩

/-- Witness for C10 at the concrete relay-backed controller with a failing
relay command. -/
theorem C10_usb_turn_off_best_effort_witness :
    C10dev.outputType = OutputType.usbRelay ∧ C10dev.hasUsbController = true ∧
    ((C10dev.turn_off false).1 = false ∧ (C10dev.turn_off false).2.is_on = true) :=
  ⟨rfl, rfl, (C10_usb_turn_off_best_effort C10dev false rfl rfl).2⟩

/-! C5: idle-tick play condition and re-arming. -/

/-- True when the trace plays some idle sound. -/
def playsIdle (l : List Ev) : Bool :=
  l.any fun e =>
    match e with
    | Ev.playIdle _ => true
    | _ => false

/-- The idle-sound-played flag as it stands after the re-arming step of a
tick at time `current`: cleared when the repeat interval since
LAST_IDLE_SOUND_TIME has elapsed, otherwise unchanged. -/
def idleFlagAfterReset (cfg : IdleConfig) (st : OrchState) (current : ℚ) : Bool :=
  if st.idleSoundPlayed ∧ cfg.idleRepeatInterval ≤ current - st.lastIdleSoundTime
  then false else st.idleSoundPlayed

theorem getElem?_mod_some (l : List Clip) (h : l.isEmpty = false) (i : Nat) :
    ∃ x, l[i % l.length]? = some x := by
  have hlen : 0 < l.length := by
    cases l with
    | nil => cases h
    | cons a t => simp
  exact ⟨_, List.getElem?_eq_getElem (Nat.mod_lt _ hlen)⟩

theorem play_idle_sound_plays (st : OrchState) (env : IdleEnv) (fs : List Clip)
    (hfs : env.idleFiles = Except.ok fs)
    (havail : (fs.filter isValidAudioExt).isEmpty = false ∨ env.defaultExists = true)
    (hflag : st.idleSoundPlayed = false) :
    playsIdle (play_idle_sound st env).2.1 = true := by
  unfold play_idle_sound
  rw [hfs]
  cases hemp : (fs.filter isValidAudioExt).isEmpty with
  | true =>
      have hdef : env.defaultExists = true := by
        rcases havail with h | h
        · rw [hemp] at h; cases h
        · exact h
      simp [hemp, hdef, hflag, playsIdle]
  | false =>
      simp only [hemp, Bool.false_eq_true, if_false, hflag]
      have hpoolne :
          (if ((fs.filter isValidAudioExt).filter
                fun c => idleSoundPath c.name != st.lastIdleSound).isEmpty
           then fs.filter isValidAudioExt
           else (fs.filter isValidAudioExt).filter
                fun c => idleSoundPath c.name != st.lastIdleSound).isEmpty = false := by
        cases hae : ((fs.filter isValidAudioExt).filter
            fun c => idleSoundPath c.name != st.lastIdleSound).isEmpty with
        | true => simpa [hae] using hemp
        | false => simpa [hae] using hae
      obtain ⟨x, hx⟩ := getElem?_mod_some _ hpoolne env.chooseIdx
      rw [hx]
      simp [playsIdle]

theorem play_idle_sound_skips_when_flagged (st : OrchState) (env : IdleEnv)
    (hflag : st.idleSoundPlayed = true) :
    (play_idle_sound st env).2.1 = [] := by
  unfold play_idle_sound
  cases env.idleFiles with
  | error e => rfl
  | ok fs =>
      simp only [hflag]
      by_cases hemp : (fs.filter isValidAudioExt).isEmpty
      · simp [hemp]
      · simp [hemp]

/-- Characterization of one idle tick with a working clock and an available
idle-sound source: an idle sound plays exactly when the inactivity window
has elapsed, no scare session is active, and the (re-armed) idle-played flag
is clear. -/
theorem check_inactivity_plays_iff (cfg : IdleConfig) (st : OrchState)
    (env : IdleEnv) (fs : List Clip) (hck : env.clockOk = true)
    (hfs : env.idleFiles = Except.ok fs)
    (havail : (fs.filter isValidAudioExt).isEmpty = false ∨ env.defaultExists = true) :
    playsIdle (check_inactivity cfg st env).2.1 = true ↔
      (cfg.standbyTimeout ≤ env.now - st.lastActivityTime ∧
       st.scareInProgress = false ∧
       idleFlagAfterReset cfg st env.now = false) := by
  have hplayzone : ∀ s1 : OrchState, s1.idleSoundPlayed = false →
      (playsIdle (if cfg.standbyTimeout ≤ env.now - s1.lastActivityTime ∧
            s1.scareInProgress = false ∧ s1.idleSoundPlayed = false
          then play_idle_sound s1 env else (s1, [], none)).2.1 = true ↔
        (cfg.standbyTimeout ≤ env.now - s1.lastActivityTime ∧
         s1.scareInProgress = false)) := by
    intro s1 hf
    by_cases hc : (cfg.standbyTimeout ≤ env.now - s1.lastActivityTime ∧
        s1.scareInProgress = false ∧ s1.idleSoundPlayed = false)
    · rw [if_pos hc]
      exact iff_of_true (play_idle_sound_plays s1 env fs hfs havail hf)
        ⟨hc.1, hc.2.1⟩
    · rw [if_neg hc]
      exact iff_of_false (by simp [playsIdle])
        (fun hcon => hc ⟨hcon.1, hcon.2, hf⟩)
  simp only [check_inactivity]
  rw [if_pos hck]
  cases hplayed : st.idleSoundPlayed with
  | false =>
      rw [if_neg (show ¬(false = true ∧
          cfg.idleRepeatInterval ≤ env.now - st.lastIdleSoundTime) from
        fun hcon => by simp at hcon)]
      rw [hplayzone st hplayed]
      have hfr : idleFlagAfterReset cfg st env.now = false := by
        simp [idleFlagAfterReset, hplayed]
      rw [hfr]
      simp
  | true =>
      by_cases hle : cfg.idleRepeatInterval ≤ env.now - st.lastIdleSoundTime
      · rw [if_pos (show true = true ∧
            cfg.idleRepeatInterval ≤ env.now - st.lastIdleSoundTime from
          ⟨rfl, hle⟩)]
        rw [hplayzone { st with idleSoundPlayed := false } rfl]
        have hfr : idleFlagAfterReset cfg st env.now = false := by
          simp [idleFlagAfterReset, hplayed, hle]
        rw [hfr]
        simp
      · rw [if_neg (show ¬(true = true ∧
            cfg.idleRepeatInterval ≤ env.now - st.lastIdleSoundTime) from
          fun hcon => hle hcon.2)]
        rw [if_neg (show ¬(cfg.standbyTimeout ≤ env.now - st.lastActivityTime ∧
            st.scareInProgress = false ∧ st.idleSoundPlayed = false) from
          fun hcon => by simp [hplayed] at hcon)]
        have hfr : idleFlagAfterReset cfg st env.now = true := by
          simp [idleFlagAfterReset, hplayed, hle]
        rw [hfr]
        constructor
        · intro h; simp [playsIdle] at h
        · intro hr; simp at hr

/-- Concrete inputs for the C5 counterexample: the inactivity window has
elapsed, no session is active and the flag is clear, but the idle directory
is empty and the default clip does not exist. -/
def C5emptyEnv : IdleEnv :=
  ⟨true, 60, 0, Except.ok [], false, 0, true, 60⟩

/-- Concrete configuration 60 s standby / 120 s repeat used by the C5
counterexample and scenario. -/
def C5cfg : IdleConfig := ⟨60, 120⟩

/-- Concrete start state for the C5 counterexample and scenario. -/
def C5st0 : OrchState := ⟨false, 0, false, 0, ""⟩

/-- Counterexample to C5 as stated: at a tick where all three conditions
hold (timeout elapsed, no session active, flag clear), no idle sound plays,
because the idle-sound directory is empty and the default clip is absent —
"plays exactly when the three conditions hold" fails without an
availability assumption. -/
theorem C5_conditions_hold_but_silent :
    C5cfg.standbyTimeout ≤ C5emptyEnv.now - C5st0.lastActivityTime ∧
    C5st0.scareInProgress = false ∧
    idleFlagAfterReset C5cfg C5st0 C5emptyEnv.now = false ∧
    (check_inactivity C5cfg C5st0 C5emptyEnv).2.1 = [] := by
  refine ⟨by norm_num [C5cfg, C5emptyEnv, C5st0], rfl,
    by norm_num [C5cfg, C5emptyEnv, C5st0, idleFlagAfterReset], ?_⟩
  norm_num [check_inactivity, play_idle_sound, C5cfg, C5emptyEnv, C5st0,
    isValidAudioExt, idleSoundPath]

/-- Idle environment of the C5 scenario at clock time t: one WAV idle clip
is present. -/
def C5envAt (t : ℚ) : IdleEnv :=
  ⟨true, t, 0, Except.ok [⟨"amb.wav", Ext.wav⟩], false, 0, true, t⟩

/-- State after the first idle sound of the C5 scenario (played at t=60). -/
def C5stAfterFirst : OrchState := ⟨false, 0, true, 60, "idle_sounds/amb.wav"⟩

/-- C5 (amended).  With a working clock and an idle-sound source available
(idle directory non-empty, or the default clip present), a tick plays an
idle sound exactly when the standby timeout has elapsed, no session is
active, and the idle-played flag — after the re-arming step, which clears it
once the repeat interval since the last idle sound has elapsed — is clear.
In the concrete scenario standby 60 s / repeat 120 s with one idle clip and
no triggers: nothing plays at t=59, the sound plays at t=60 (setting the
flag and recording time 60), nothing plays at t=120 and t=179, and at t=180
the flag re-arms and a second sound plays in the same tick. -/
theorem C5_idle_play_iff_and_rearm :
    (∀ (cfg : IdleConfig) (st : OrchState) (env : IdleEnv) (fs : List Clip),
        env.clockOk = true → env.idleFiles = Except.ok fs →
        ((fs.filter isValidAudioExt).isEmpty = false ∨ env.defaultExists = true) →
        (playsIdle (check_inactivity cfg st env).2.1 = true ↔
          (cfg.standbyTimeout ≤ env.now - st.lastActivityTime ∧
           st.scareInProgress = false ∧
           idleFlagAfterReset cfg st env.now = false))) ∧
    check_inactivity C5cfg C5st0 (C5envAt 59) = (C5st0, [], none) ∧
    check_inactivity C5cfg C5st0 (C5envAt 60) =
      (C5stAfterFirst, [Ev.playIdle "idle_sounds/amb.wav"], none) ∧
    check_inactivity C5cfg C5stAfterFirst (C5envAt 120) = (C5stAfterFirst, [], none) ∧
    check_inactivity C5cfg C5stAfterFirst (C5envAt 179) = (C5stAfterFirst, [], none) ∧
    check_inactivity C5cfg C5stAfterFirst (C5envAt 180) =
      (⟨false, 0, true, 180, "idle_sounds/amb.wav"⟩,
       [Ev.playIdle "idle_sounds/amb.wav"], none) := by
  refine ⟨check_inactivity_plays_iff, ?_, ?_, ?_, ?_, ?_⟩ <;>
    (norm_num [check_inactivity, play_idle_sound, C5cfg, C5st0, C5stAfterFirst,
      C5envAt, isValidAudioExt, idleSoundPath] ; try simp)

/-- Witness for the amended C5: the characterization applied at the
concrete first-tick input of the scenario. -/
theorem C5_idle_play_iff_and_rearm_witness :
    (C5envAt 60).clockOk = true ∧
    (C5envAt 60).idleFiles = Except.ok [⟨"amb.wav", Ext.wav⟩] ∧
    (([⟨"amb.wav", Ext.wav⟩] : List Clip).filter isValidAudioExt).isEmpty = false ∧
    (playsIdle (check_inactivity C5cfg C5st0 (C5envAt 60)).2.1 = true ↔
      (C5cfg.standbyTimeout ≤ (C5envAt 60).now - C5st0.lastActivityTime ∧
       C5st0.scareInProgress = false ∧
       idleFlagAfterReset C5cfg C5st0 (C5envAt 60).now = false)) :=
  ⟨rfl, rfl, rfl,
   C5_idle_play_iff_and_rearm.1 C5cfg C5st0 (C5envAt 60) [⟨"amb.wav", Ext.wav⟩]
     rfl rfl (Or.inl rfl)⟩

/-! C8: error containment in the idle tick. -/

/-- Concrete configuration for C8: the source constants. -/
def C8cfg : IdleConfig := ⟨STANDBY_TIMEOUT, IDLE_REPEAT_INTERVAL⟩

/-- Concrete state for the C8 counterexample: inactive long enough. -/
def C8st : OrchState := ⟨false, 0, false, 0, ""⟩

/-- Concrete environment for the C8 counterexample: the idle-directory
listing raises. -/
def C8env : IdleEnv :=
  ⟨true, 200, 0, Except.error (), false, 0, true, 200⟩

/-- Counterexample to C8 as stated: when the idle-directory listing raises
during a tick that reaches the idle-sound step, the exception propagates out
of play_idle_sound and check_inactivity — os.makedirs/os.listdir are not
wrapped in any try block, so the tick is not skipped and the monitoring loop
crashes. -/
theorem C8_listing_failure_escapes :
    (check_inactivity C8cfg C8st C8env).2.2 = some () := by
  norm_num [check_inactivity, play_idle_sound, C8cfg, C8st, C8env,
    STANDBY_TIMEOUT, IDLE_REPEAT_INTERVAL]

/-- C8 (amended).  A clock-read failure inside check_inactivity is caught
and replaced by a fallback time, so such a tick never raises (when the
idle listing succeeds); but a failure of the idle-directory listing or
creation is uncaught and propagates out of check_inactivity whenever the
tick reaches the idle-sound step. -/
theorem C8_clock_caught_listing_uncaught (cfg : IdleConfig) (st : OrchState)
    (env : IdleEnv) (fs : List Clip) :
    (env.clockOk = false → env.idleFiles = Except.ok fs →
      (check_inactivity cfg st env).2.2 = none) ∧
    (env.clockOk = true → env.idleFiles = Except.error () →
      st.scareInProgress = false → st.idleSoundPlayed = false →
      cfg.standbyTimeout ≤ env.now - st.lastActivityTime →
      (check_inactivity cfg st env).2.2 = some ()) := by
  constructor
  · intro hck hfs
    have herr : ∀ s : OrchState, (play_idle_sound s env).2.2 = none := by
      intro s
      unfold play_idle_sound
      rw [hfs]
      cases hemp : (fs.filter isValidAudioExt).isEmpty with
      | true =>
          cases hdef : env.defaultExists with
          | true =>
              cases hfl : s.idleSoundPlayed with
              | true => simp [hemp, hdef, hfl]
              | false => simp [hemp, hdef, hfl]
          | false => simp [hemp, hdef]
      | false =>
          cases hfl : s.idleSoundPlayed with
          | true => simp [hemp, hfl]
          | false =>
              simp only [hemp, Bool.false_eq_true, if_false, hfl]
              have hpoolne :
                  (if ((fs.filter isValidAudioExt).filter
                        fun c => idleSoundPath c.name != s.lastIdleSound).isEmpty
                   then fs.filter isValidAudioExt
                   else (fs.filter isValidAudioExt).filter
                        fun c => idleSoundPath c.name != s.lastIdleSound).isEmpty
                    = false := by
                cases hae : ((fs.filter isValidAudioExt).filter
                    fun c => idleSoundPath c.name != s.lastIdleSound).isEmpty with
                | true => simpa [hae] using hemp
                | false => simpa [hae] using hae
              obtain ⟨x, hx⟩ := getElem?_mod_some _ hpoolne env.chooseIdx
              rw [hx]
    simp only [check_inactivity]
    rw [if_neg (show ¬(env.clockOk = true) from fun hcon => by simp [hck] at hcon)]
    by_cases hr : (st.idleSoundPlayed = true ∧
        cfg.idleRepeatInterval ≤
          st.lastActivityTime + env.fallbackDelta - st.lastIdleSoundTime)
    · rw [if_pos hr]
      by_cases ho : (cfg.standbyTimeout ≤
            st.lastActivityTime + env.fallbackDelta - st.lastActivityTime ∧
          ({ st with idleSoundPlayed := false } : OrchState).scareInProgress = false ∧
          ({ st with idleSoundPlayed := false } : OrchState).idleSoundPlayed = false)
      · rw [if_pos ho]; exact herr _
      · rw [if_neg ho]
    · rw [if_neg hr]
      by_cases ho : (cfg.standbyTimeout ≤
            st.lastActivityTime + env.fallbackDelta - st.lastActivityTime ∧
          st.scareInProgress = false ∧ st.idleSoundPlayed = false)
      · rw [if_pos ho]; exact herr _
      · rw [if_neg ho]
  · intro hck hfs hscare hflag hto
    simp only [check_inactivity]
    rw [if_pos hck]
    rw [if_neg (show ¬(st.idleSoundPlayed = true ∧
        cfg.idleRepeatInterval ≤ env.now - st.lastIdleSoundTime) from
      fun hcon => by simp [hflag] at hcon)]
    rw [if_pos (show cfg.standbyTimeout ≤ env.now - st.lastActivityTime ∧
        st.scareInProgress = false ∧ st.idleSoundPlayed = false from
      ⟨hto, hscare, hflag⟩)]
    unfold play_idle_sound
    rw [hfs]

/-- Witness for the amended C8: a clock-failure tick that completes, and a
listing-failure tick that raises, at concrete inputs. -/
theorem C8_clock_caught_listing_uncaught_witness :
    ((⟨false, 150, 0, Except.ok [], false, 0, true, 150⟩ : IdleEnv).clockOk = false ∧
     (check_inactivity C8cfg C8st ⟨false, 150, 0, Except.ok [], false, 0, true, 150⟩).2.2
       = none) ∧
    (C8env.clockOk = true ∧ C8env.idleFiles = Except.error () ∧
     C8st.scareInProgress = false ∧ C8st.idleSoundPlayed = false ∧
     C8cfg.standbyTimeout ≤ C8env.now - C8st.lastActivityTime ∧
     (check_inactivity C8cfg C8st C8env).2.2 = some ()) :=
  ⟨⟨rfl,
    (C8_clock_caught_listing_uncaught C8cfg C8st
      ⟨false, 150, 0, Except.ok [], false, 0, true, 150⟩ []).1 rfl rfl⟩,
   ⟨rfl, rfl, rfl, rfl,
    by norm_num [C8cfg, C8st, C8env, STANDBY_TIMEOUT],
    (C8_clock_caught_listing_uncaught C8cfg C8st C8env []).2 rfl rfl rfl rfl
      (by norm_num [C8cfg, C8st, C8env, STANDBY_TIMEOUT])⟩⟩

end MotionScare
